import Mathlib

/-!
Shallow embedding of the `api_comparison` bookstore core of the
`system-design` repository, and proofs about it.

Conventions of the embedding:
- Python `int` ids become `Nat`; monetary values (Python `float` prices
  and totals) are IEEE-754 binary64 doubles, embedded as the exact
  dyadic rationals those doubles denote: a decimal literal is parsed
  with `pyFloat` (correct round-to-nearest, ties-to-even) and `float`
  addition is `fadd` (correctly rounded binary64 addition), so the
  embedding computes exactly the doubles the program computes.
- `datetime(y, m, d)` values are encoded as the natural number
  `y*10000 + m*100 + d` (e.g. `datetime(2023, 6, 1)` is `20230601`);
  `datetime.now()` becomes an explicit `now : Nat` parameter.
- Python `next((x for x in xs if p x), None)` becomes `List.find?`,
  list comprehensions become `List.filter` / `List.filterMap`, and a
  Python `max()` call, which raises `ValueError` on an empty sequence,
  becomes an `Option`-valued maximum that is `none` on `[]`.
- Functions whose Python counterpart can raise return `Option`/`Except`.
-/

namespace Bookstore

/-- Embeds `shared/models.py` — `Author` dataclass. -/
structure Author where
  id : Nat
  name : String
  bio : String
  birth_year : Nat
deriving DecidableEq

/-- Embeds `shared/models.py` — `Book` dataclass. -/
structure Book where
  id : Nat
  title : String
  author_id : Nat
  price : ℚ
  genre : String
  published_year : Nat
  isbn : String
deriving DecidableEq

/-- Embeds `shared/models.py` — `Customer` dataclass. -/
structure Customer where
  id : Nat
  name : String
  email : String
  registration_date : Nat
deriving DecidableEq

/-- Embeds `shared/models.py` — `Order` dataclass. -/
structure Order where
  id : Nat
  customer_id : Nat
  book_ids : List Nat
  total_amount : ℚ
  order_date : Nat
deriving DecidableEq

/-- Embeds `shared/database.py` — the four in-memory collections owned by
`MockDatabase` (`self.authors`, `self.books`, `self.customers`,
`self.orders`). -/
structure DB where
  authors : List Author
  books : List Book
  customers : List Customer
  orders : List Order
deriving DecidableEq

/-- Python `max(...)` over a sequence of `Nat`: `none` on the empty
sequence (where Python raises `ValueError`). -/
def pyMax : List Nat → Option Nat
  | [] => none
  | a :: as => some (as.foldl Nat.max a)

/-- Python `str.lower()`: lower-cases character by character (spelled as
a structural map over the char list, which agrees with `String.toLower`
and computes by reduction). -/
def pyLower (s : String) : String := String.mk (s.data.map Char.toLower)

/-- Fuel-based floor of the base-2 logarithm (agrees with `Nat.log2` but
is structurally recursive, so it computes by reduction). -/
def natLog2Aux : Nat → Nat → Nat
  | 0, _ => 0
  | fuel + 1, n => if 2 ≤ n then natLog2Aux fuel (n / 2) + 1 else 0

/-- Floor of the base-2 logarithm of a positive natural. -/
def natLog2 (n : Nat) : Nat := natLog2Aux n n

/-- Rounds the ratio `a / b` (with `b > 0`) to the nearest integer,
ties to even. -/
def rnde (a b : Nat) : Nat :=
  let q := a / b
  let r := a % b
  if 2 * r < b then q
  else if b < 2 * r then q + 1
  else if q % 2 = 0 then q else q + 1

/-- Rounds the positive rational `n / d` to the nearest IEEE-754
binary64 value (round to nearest, ties to even): the mantissa is the
rounded 53-bit scaling of `n / d` by `2 ^ (52 - floor (log2 (n / d)))`.
Normal range only — the bookstore's price magnitudes reach neither
overflow nor subnormals. -/
def roundPos (n d : Nat) : ℚ :=
  let k0 : Int := (natLog2 n : Int) - (natLog2 d : Int)
  let k : Int :=
    if 0 ≤ k0 then (if d * 2 ^ k0.toNat ≤ n then k0 else k0 - 1)
    else (if d ≤ n * 2 ^ (-k0).toNat then k0 else k0 - 1)
  let s : Int := 52 - k
  if 0 ≤ s then ((rnde (n * 2 ^ s.toNat) d : Nat) : ℚ) / ((2 ^ s.toNat : Nat) : ℚ)
  else ((rnde n (d * 2 ^ (-s).toNat) : Nat) : ℚ) * ((2 ^ (-s).toNat : Nat) : ℚ)

/-- Rounds an exact rational to the nearest IEEE-754 binary64 value. -/
def roundF64 (q : ℚ) : ℚ :=
  if q = 0 then 0
  else if q < 0 then - roundPos (-q).num.toNat (-q).den
  else roundPos q.num.toNat q.den

/-- A Python `float` literal: the decimal is parsed to the nearest
binary64 double (e.g. `pyFloat 0.1 = 3602879701896397 / 2 ^ 55`). -/
def pyFloat (q : ℚ) : ℚ := roundF64 q

/-- Python `float` addition: correctly rounded binary64 addition. -/
def fadd (a b : ℚ) : ℚ := roundF64 (a + b)

/-- Embeds `MockDatabase._init_data` — the seeded authors. -/
def seed_authors : List Author :=
  [ { id := 1, name := "J.K. Rowling",
      bio := "British author best known for Harry Potter series",
      birth_year := 1965 },
    { id := 2, name := "George Orwell",
      bio := "English novelist and journalist", birth_year := 1903 },
    { id := 3, name := "Jane Austen",
      bio := "English novelist of romantic fiction", birth_year := 1775 },
    { id := 4, name := "Stephen King",
      bio := "American author of horror and supernatural fiction",
      birth_year := 1947 },
    { id := 5, name := "Agatha Christie",
      bio := "English writer known for detective novels",
      birth_year := 1890 } ]

/-- Embeds `MockDatabase._init_data` — the seeded books. -/
def seed_books : List Book :=
  [ { id := 1, title := "Harry Potter and the Philosopher\x27s Stone",
      author_id := 1, price := pyFloat 29.99, genre := "Fantasy",
      published_year := 1997, isbn := "978-0439708180" },
    { id := 2, title := "Harry Potter and the Chamber of Secrets",
      author_id := 1, price := pyFloat 32.99, genre := "Fantasy",
      published_year := 1998, isbn := "978-0439064873" },
    { id := 3, title := "1984", author_id := 2, price := pyFloat 19.99,
      genre := "Dystopian Fiction", published_year := 1949,
      isbn := "978-0451524935" },
    { id := 4, title := "Animal Farm", author_id := 2, price := pyFloat 15.99,
      genre := "Allegorical Fiction", published_year := 1945,
      isbn := "978-0451526342" },
    { id := 5, title := "Pride and Prejudice", author_id := 3,
      price := pyFloat 22.99, genre := "Romance", published_year := 1813,
      isbn := "978-0141439518" },
    { id := 6, title := "The Shining", author_id := 4, price := pyFloat 24.99,
      genre := "Horror", published_year := 1977,
      isbn := "978-0307743657" },
    { id := 7, title := "It", author_id := 4, price := pyFloat 27.99,
      genre := "Horror", published_year := 1986,
      isbn := "978-1501142970" },
    { id := 8, title := "Murder on the Orient Express", author_id := 5,
      price := pyFloat 18.99, genre := "Mystery", published_year := 1934,
      isbn := "978-0062693662" },
    { id := 9, title := "And Then There Were None", author_id := 5,
      price := pyFloat 16.99, genre := "Mystery", published_year := 1939,
      isbn := "978-0062073488" } ]

/-- Embeds `MockDatabase._init_data` — the seeded customers. -/
def seed_customers : List Customer :=
  [ { id := 1, name := "Alice Johnson", email := "alice@example.com",
      registration_date := 20230115 },
    { id := 2, name := "Bob Smith", email := "bob@example.com",
      registration_date := 20230322 },
    { id := 3, name := "Carol Davis", email := "carol@example.com",
      registration_date := 20230510 },
    { id := 4, name := "David Wilson", email := "david@example.com",
      registration_date := 20230708 } ]

/-- Embeds `MockDatabase._init_data` — the seeded orders. -/
def seed_orders : List Order :=
  [ { id := 1, customer_id := 1, book_ids := [1, 2],
      total_amount := pyFloat 62.98, order_date := 20230601 },
    { id := 2, customer_id := 1, book_ids := [3],
      total_amount := pyFloat 19.99, order_date := 20230615 },
    { id := 3, customer_id := 2, book_ids := [5, 8],
      total_amount := pyFloat 41.98, order_date := 20230703 },
    { id := 4, customer_id := 3, book_ids := [6, 7],
      total_amount := pyFloat 52.98, order_date := 20230812 },
    { id := 5, customer_id := 4, book_ids := [4, 9],
      total_amount := pyFloat 32.98, order_date := 20230820 } ]

/-- The `MockDatabase()` state right after `_init_data`. -/
def seed_db : DB :=
  { authors := seed_authors, books := seed_books,
    customers := seed_customers, orders := seed_orders }

/-- Embeds `MockDatabase.get_all_authors`. -/
def get_all_authors (db : DB) : List Author := db.authors

/-- Embeds `MockDatabase.get_author_by_id`. -/
def get_author_by_id (db : DB) (author_id : Nat) : Option Author :=
  db.authors.find? (fun author => author.id = author_id)

/-- Embeds `MockDatabase.get_all_books`. -/
def get_all_books (db : DB) : List Book := db.books

/-- Embeds `MockDatabase.get_book_by_id`. -/
def get_book_by_id (db : DB) (book_id : Nat) : Option Book :=
  db.books.find? (fun book => book.id = book_id)

/-- Embeds `MockDatabase.get_books_by_author`. -/
def get_books_by_author (db : DB) (author_id : Nat) : List Book :=
  db.books.filter (fun book => book.author_id = author_id)

/-- Embeds `MockDatabase.get_books_by_genre` — case-insensitive exact match on
the genre. -/
def get_books_by_genre (db : DB) (genre : String) : List Book :=
  db.books.filter (fun book => pyLower book.genre = pyLower genre)

/-- Embeds `MockDatabase.get_all_customers`. -/
def get_all_customers (db : DB) : List Customer := db.customers

/-- Embeds `MockDatabase.get_customer_by_id`. -/
def get_customer_by_id (db : DB) (customer_id : Nat) : Option Customer :=
  db.customers.find? (fun customer => customer.id = customer_id)

/-- Embeds `MockDatabase.get_all_orders`. -/
def get_all_orders (db : DB) : List Order := db.orders

/-- Embeds `MockDatabase.get_order_by_id`. -/
def get_order_by_id (db : DB) (order_id : Nat) : Option Order :=
  db.orders.find? (fun order => order.id = order_id)

/-- Embeds `MockDatabase.get_orders_by_customer`. -/
def get_orders_by_customer (db : DB) (customer_id : Nat) : List Order :=
  db.orders.filter (fun order => order.customer_id = customer_id)

/-- Embeds `MockDatabase.get_author_for_book`. -/
def get_author_for_book (db : DB) (book : Book) : Option Author :=
  get_author_by_id db book.author_id

/-- Embeds `MockDatabase.get_customer_for_order`. -/
def get_customer_for_order (db : DB) (order : Order) : Option Customer :=
  get_customer_by_id db order.customer_id

/-- Embeds `MockDatabase.get_books_for_order` — resolves each id of
`order.book_ids` and keeps only the ones that resolve (a `Book`
dataclass instance is always truthy, so the Python guard
`if self.get_book_by_id(book_id)` is exactly resolvability). -/
def get_books_for_order (db : DB) (order : Order) : List Book :=
  order.book_ids.filterMap (fun book_id => get_book_by_id db book_id)

/-- Embeds `MockDatabase.create_book` — `new_id = max(book.id for book in
self.books) + 1`; `none` when `self.books` is empty (Python raises
`ValueError` there). Appends the new book and returns it. -/
def create_book (db : DB) (title : String) (author_id : Nat) (price : ℚ)
    (genre : String) (published_year : Nat) (isbn : String) :
    Option (Book × DB) :=
  match pyMax (db.books.map Book.id) with
  | none => none
  | some m =>
    let new_book : Book :=
      { id := m + 1, title := title, author_id := author_id,
        price := price, genre := genre,
        published_year := published_year, isbn := isbn }
    some (new_book, { db with books := db.books ++ [new_book] })

/-- Embeds `MockDatabase.create_customer` — same id rule over `self.customers`;
`datetime.now()` is the explicit `now` argument. -/
def create_customer (db : DB) (name email : String) (now : Nat) :
    Option (Customer × DB) :=
  match pyMax (db.customers.map Customer.id) with
  | none => none
  | some m =>
    let new_customer : Customer :=
      { id := m + 1, name := name, email := email,
        registration_date := now }
    some (new_customer, { db with customers := db.customers ++ [new_customer] })

/-- Embeds `MockDatabase.create_order` — id rule over `self.orders`; the total
starts at `0.0` and accumulates, with binary64 `float` addition
(`total += book.price`), the price of each `book_id` that resolves,
silently skipping ids that do not. -/
def create_order (db : DB) (customer_id : Nat) (book_ids : List Nat)
    (now : Nat) : Option (Order × DB) :=
  match pyMax (db.orders.map Order.id) with
  | none => none
  | some m =>
    let total : ℚ :=
      book_ids.foldl
        (fun acc book_id =>
          match get_book_by_id db book_id with
          | some book => fadd acc book.price
          | none => acc)
        0
    let new_order : Order :=
      { id := m + 1, customer_id := customer_id, book_ids := book_ids,
        total_amount := total, order_date := now }
    some (new_order, { db with orders := db.orders ++ [new_order] })

/-! ## REST adapter (`rest_api/app.py`)

Only the handlers' validation and store-delegation logic is embedded;
Flask routing, JSON parsing and status codes are transport concerns.
A handler returning an error body is an `Except.error` carrying the
human-readable `error` string. Required-field checks operate on parsed
JSON; here the arguments are already typed, so a missing-field branch
cannot arise and is not modelled. -/

/-- Embeds `rest_api/app.py` — `POST /api/books` (`create_book` handler): no
foreign-key validation at all; it delegates straight to
`db.create_book`, turning an exception into a 400 error body. -/
def rest_create_book (db : DB) (title : String) (author_id : Nat)
    (price : ℚ) (genre : String) (published_year : Nat) (isbn : String) :
    Except String (Book × DB) :=
  match create_book db title author_id price genre published_year isbn with
  | some r => Except.ok r
  | none => Except.error ("max() arg is an empty sequence")

/-- Embeds `rest_api/app.py` — `POST /api/orders` (`create_order` handler):
404 with reason when the customer is unknown, then 404 naming the first
unknown book id, else delegates to `db.create_order`. -/
def rest_create_order (db : DB) (customer_id : Nat)
    (book_ids : List Nat) (now : Nat) : Except String (Order × DB) :=
  match get_customer_by_id db customer_id with
  | none => Except.error ("Customer not found")
  | some _ =>
    match book_ids.find? (fun book_id => (get_book_by_id db book_id).isNone) with
    | some book_id =>
      Except.error ("Book with ID " ++ toString book_id ++ " not found")
    | none =>
      match create_order db customer_id book_ids now with
      | some r => Except.ok r
      | none => Except.error ("max() arg is an empty sequence")

/-! ## Spec-modelled Entity Store mutators

`graphql_api/schema.py` delegates `delete_*` and `update_*` to a
`shared.database.database` module that is not under `src/` (only its
caller, the schema, is; the `shared/database.py` under `src/` exposes a
different, dataclass-based `db` with no delete or update). These
mutators are therefore modelled from the spec, against the dataclass
collections. -/

/-- Modelled from the spec: `delete(kind, id)` of the Entity Store
contract (§4.1) for the author collection — the `database` module
implementing `delete_author` (called by `Mutation.delete_author` in
`graphql_api/schema.py`) is not under `src/`. Removes the matching
entity and returns boolean success; no cascading side effects. -/
def delete_author (db : DB) (id : Nat) : Bool × DB :=
  if db.authors.any (fun author => author.id = id) then
    (true, { db with authors := db.authors.filter (fun author => author.id ≠ id) })
  else
    (false, db)

/-- Modelled from the spec: `delete(kind, id)` (§4.1) for the book
collection — the `database` module implementing `delete_book` (called by
`Mutation.delete_book`) is not under `src/`. -/
def delete_book (db : DB) (id : Nat) : Bool × DB :=
  if db.books.any (fun book => book.id = id) then
    (true, { db with books := db.books.filter (fun book => book.id ≠ id) })
  else
    (false, db)

/-- Modelled from the spec: `delete(kind, id)` (§4.1) for the customer
collection — the `database` module implementing `delete_customer` is not
under `src/`. -/
def delete_customer (db : DB) (id : Nat) : Bool × DB :=
  if db.customers.any (fun customer => customer.id = id) then
    (true, { db with customers := db.customers.filter (fun customer => customer.id ≠ id) })
  else
    (false, db)

/-- Modelled from the spec: `delete(kind, id)` (§4.1) for the order
collection — no order-delete caller exists under `src/`, but the claim
ranges over every collection kind. -/
def delete_order (db : DB) (id : Nat) : Bool × DB :=
  if db.orders.any (fun order => order.id = id) then
    (true, { db with orders := db.orders.filter (fun order => order.id ≠ id) })
  else
    (false, db)

/-- Modelled from the spec: the price-replacing fragment of
`update(kind, id, fields)` (§4.1) / `update_book` — the implementing
`database` module is not under `src/`. Replaces the price of the book
with the given id in place; no other collection is touched. -/
def update_book_price (db : DB) (id : Nat) (price : ℚ) : DB :=
  { db with
    books := db.books.map (fun book =>
      if book.id = id then { book with price := price } else book) }

/-! ## Strategy B resolvers (`graphql_api/schema.py`)

The Strawberry schema reads from the dict-based `shared.database.database`
store (not under `src/`; its record shapes are those of the schema
types). The resolver logic itself — filters, truthiness guards, limits —
is all in `graphql_api/schema.py` and is embedded verbatim. Entities are
the schema's strawberry types; `Optional[...]` fields become `Option`.
A Python `if x:` guard on an `Optional[int]` argument is falsy for both
`None` and `0`, and on an `Optional[str]` for both `None` and the empty
string; the embedding spells both cases out. `list[:limit]` for a
non-negative limit is `List.take`. -/

/-- Embeds `graphql_api/schema.py` — strawberry type `Author`. -/
structure GAuthor where
  id : Nat
  name : String
  email : String
  bio : Option String
  created_at : Nat
deriving DecidableEq

/-- Embeds `graphql_api/schema.py` — strawberry type `Book`. -/
structure GBook where
  id : Nat
  title : String
  isbn : String
  price : ℚ
  publication_date : Nat
  author_id : Nat
  genre : Option String
  description : Option String
deriving DecidableEq

/-- Embeds `graphql_api/schema.py` — strawberry type `Customer`. -/
structure GCustomer where
  id : Nat
  name : String
  email : String
  address : Option String
  phone : Option String
  created_at : Nat
deriving DecidableEq

/-- Embeds `graphql_api/schema.py` — strawberry type `OrderItem`. -/
structure GOrderItem where
  book_id : Nat
  quantity : Nat
  price : ℚ
deriving DecidableEq

/-- Embeds `graphql_api/schema.py` — strawberry type `Order`. -/
structure GOrder where
  id : Nat
  customer_id : Nat
  order_date : Nat
  total_amount : ℚ
  status : String
  items : List GOrderItem
deriving DecidableEq

/-- Modelled from the spec: the collections of the
`shared.database.database` store read by the schema resolvers (the
module is not under `src/`); `get_all_*` returns each collection in
insertion order (§4.1). -/
structure GDB where
  authors : List GAuthor
  books : List GBook
  customers : List GCustomer
  orders : List GOrder
deriving DecidableEq

/-- Modelled from the spec: `database.get_books_by_author` —
`get_by_foreign_key` (§4.1), a filtered sequence preserving source
order. -/
def g_books_by_author (gdb : GDB) (author_id : Nat) : List GBook :=
  gdb.books.filter (fun book => book.author_id = author_id)

/-- Modelled from the spec: `database.get_orders_by_customer` —
`get_by_foreign_key` (§4.1). -/
def g_orders_by_customer (gdb : GDB) (customer_id : Nat) : List GOrder :=
  gdb.orders.filter (fun order => order.customer_id = customer_id)

/-- Embeds `graphql_api/schema.py` — `Query.authors(limit)`: all authors, then
`if limit: authors_data[:limit]`. -/
def query_authors (gdb : GDB) (limit : Option Nat) : List GAuthor :=
  let authors_data := gdb.authors
  match limit with
  | some n => if n = 0 then authors_data else authors_data.take n
  | none => authors_data

/-- Embeds `graphql_api/schema.py` — `Query.books(limit, author_id, genre)`:
author filter (guarded by Python truthiness of `author_id`), then the
genre filter `book.get("genre") == genre` (guarded by truthiness of
`genre`; the comparison itself is a case-sensitive exact match), then
`if limit: books_data[:limit]`. -/
def query_books (gdb : GDB) (limit : Option Nat) (author_id : Option Nat)
    (genre : Option String) : List GBook :=
  let books_data :=
    match author_id with
    | some aid => if aid = 0 then gdb.books else g_books_by_author gdb aid
    | none => gdb.books
  let books_data :=
    match genre with
    | some g =>
      if g = "" then books_data
      else books_data.filter (fun book => book.genre = some g)
    | none => books_data
  match limit with
  | some n => if n = 0 then books_data else books_data.take n
  | none => books_data

/-- Embeds `graphql_api/schema.py` — `Query.customers(limit)`. -/
def query_customers (gdb : GDB) (limit : Option Nat) : List GCustomer :=
  let customers_data := gdb.customers
  match limit with
  | some n => if n = 0 then customers_data else customers_data.take n
  | none => customers_data

/-- Embeds `graphql_api/schema.py` — `Query.orders(limit, customer_id, status)`:
customer filter (truthiness-guarded), status filter
`order.get("status") == status` (truthiness-guarded exact match), then
`if limit: orders_data[:limit]`. -/
def query_orders (gdb : GDB) (limit : Option Nat)
    (customer_id : Option Nat) (status : Option String) : List GOrder :=
  let orders_data :=
    match customer_id with
    | some cid => if cid = 0 then gdb.orders else g_orders_by_customer gdb cid
    | none => gdb.orders
  let orders_data :=
    match status with
    | some st =>
      if st = "" then orders_data
      else orders_data.filter (fun order => order.status = st)
    | none => orders_data
  match limit with
  | some n => if n = 0 then orders_data else orders_data.take n
  | none => orders_data

/-- Python `needle in hay` on strings: substring containment. -/
def strContains (hay needle : String) : Bool :=
  decide (needle.toList <:+: hay.toList)

/-- Embeds `graphql_api/schema.py` — the match condition of
`Query.search_books`: `query.lower() in book["title"].lower() or
(book.get("description") and query.lower() in
book["description"].lower())`; a `None` or empty description makes the
right disjunct falsy. -/
def search_matches (q : String) (book : GBook) : Bool :=
  strContains (pyLower book.title) (pyLower q) ||
    (match book.description with
     | some d => if d = "" then false else strContains (pyLower d) (pyLower q)
     | none => false)

/-- Embeds `graphql_api/schema.py` — `Query.search_books(query, limit)`:
collects the matching books in source order, then `if limit:
matching_books[:limit]`. -/
def query_search_books (gdb : GDB) (q : String) (limit : Option Nat) :
    List GBook :=
  let matching_books := gdb.books.filter (fun book => search_matches q book)
  match limit with
  | some n => if n = 0 then matching_books else matching_books.take n
  | none => matching_books

/-! ## Client traversals (`client_examples/`)

The clients drive remote servers over HTTP; the embedding models the
orders payload the remote returns and counts the requests the client
code issues, which is exactly the accounting the clients themselves
perform in `total_requests`. -/

/-- An order as served to `rest_client.py`: the client reads
`order["items"]` and each `item["book_id"]`. -/
structure RItem where
  book_id : Nat
deriving DecidableEq

/-- An order in the payload of `GET /orders?customer_id=...`. -/
structure ROrder where
  id : Nat
  customer_id : Nat
  items : List RItem
deriving DecidableEq

/-- The remote REST server state visible to the client: the orders the
order-listing endpoint serves. -/
structure RestServer where
  orders : List ROrder
deriving DecidableEq

/-- Embeds `client_examples/rest_client.py` —
`RESTBookstoreClient.get_customer_order_summary`: `request_count`
starts at 0, one customer request and one orders request bring it to 2,
then the nested loops issue one `GET /books/{book_id}` request per item
of every order, incrementing per request. The function returns the
final `total_requests`. -/
def rest_customer_summary_call_count (srv : RestServer)
    (customer_id : Nat) : Nat :=
  let orders_data := srv.orders.filter (fun o => o.customer_id = customer_id)
  orders_data.foldl
    (fun request_count order =>
      order.items.foldl (fun n _item => n + 1) request_count)
    2

/-- The number of distinct book references across all order items of one
customer, as the claim counts them. -/
def rest_customer_distinct_books (srv : RestServer)
    (customer_id : Nat) : Nat :=
  (((srv.orders.filter (fun o => o.customer_id = customer_id)).flatMap
      (fun o => o.items)).map RItem.book_id).dedup.length

/-- The result bundle a GraphQL client helper returns: the assembled
data is transport payload; the comparison metrics are these two
fields. -/
structure GqlBundle where
  total_requests : Nat
  total_bytes : Nat
deriving DecidableEq

/-- Embeds `client_examples/graphql_client.py` —
`GraphQLBookstoreClient.get_author_with_books`: posts the single
`GetAuthorWithBooks` query document (whatever the author id and however
deep the nested `books` selection resolves server-side) and sets
`total_requests = 1` and `total_bytes` to the response length. The list
of issued HTTP posts is made explicit, tagged by operation name. -/
def gql_get_author_with_books (author_id : Nat) (response : String) :
    List String × GqlBundle :=
  ([ "GetAuthorWithBooks" ++ toString author_id ],
   { total_requests := 1, total_bytes := response.length })

/-- Embeds `client_examples/graphql_client.py` —
`GraphQLBookstoreClient.get_customer_order_summary`: posts the single
`GetCustomerOrderSummary` query document (customer → orders → items →
book, three relation levels in one request) and sets
`total_requests = 1` and `total_bytes` to the response length. -/
def gql_get_customer_order_summary (customer_id : Nat)
    (response : String) : List String × GqlBundle :=
  ([ "GetCustomerOrderSummary" ++ toString customer_id ],
   { total_requests := 1, total_bytes := response.length })

/-! ## Helper lemmas -/

/-- Counting a fold that adds one per element. -/
theorem foldl_count_aux {α : Type} (l : List α) (n : Nat) :
    l.foldl (fun m _ => m + 1) n = n + l.length := by
  induction l generalizing n with
  | nil => simp
  | cons a as ih => simp only [List.foldl_cons, ih, List.length_cons]; omega

/-- The nested request-counting fold of the REST client adds the item
count of every order to the accumulator. -/
theorem rest_count_aux (l : List ROrder) (n : Nat) :
    l.foldl (fun request_count order =>
        order.items.foldl (fun m _item => m + 1) request_count) n
      = n + (l.map (fun o => o.items.length)).sum := by
  induction l generalizing n with
  | nil => simp
  | cons o os ih =>
    rw [List.foldl_cons, ih, foldl_count_aux, List.map_cons, List.sum_cons]
    omega

/-- A successful book lookup returns a member of the book collection
whose id is the queried id. -/
theorem get_book_by_id_mem (db : DB) (i : Nat) (b : Book)
    (h : get_book_by_id db i = some b) : b ∈ db.books ∧ b.id = i := by
  unfold get_book_by_id at h
  refine ⟨List.mem_of_find?_eq_some h, ?_⟩
  have h2 := List.find?_some h
  simpa using h2

/-- Mapping ids over the resolved books of an id list is filtering the
id list down to the resolvable ids. -/
theorem map_id_filterMap_aux (db : DB) (ids : List Nat) :
    (ids.filterMap (fun i => get_book_by_id db i)).map Book.id
      = ids.filter (fun i => (get_book_by_id db i).isSome) := by
  induction ids with
  | nil => rfl
  | cons i is ih =>
    cases h : get_book_by_id db i with
    | none => simp [List.filterMap_cons, List.filter_cons, h, ih]
    | some b =>
      have hid : b.id = i := (get_book_by_id_mem db i b h).2
      simp [List.filterMap_cons, List.filter_cons, h, ih, hid]

/-- The seed of a `Nat` max-fold bounds below, and every element bounds
below, the fold result. -/
theorem foldl_max_le (as : List Nat) (a : Nat) :
    a ≤ as.foldl Nat.max a ∧ ∀ n ∈ as, n ≤ as.foldl Nat.max a := by
  induction as generalizing a with
  | nil => simp
  | cons x xs ih =>
    simp only [List.foldl_cons]
    refine ⟨le_trans (Nat.le_max_left a x) (ih (Nat.max a x)).1, ?_⟩
    intro n hn
    rcases List.mem_cons.mp hn with h1 | h1
    · rw [h1]
      exact le_trans (Nat.le_max_right a x) (ih (Nat.max a x)).1
    · exact (ih (Nat.max a x)).2 n h1

/-- Every member of a list is at most its Python maximum. -/
theorem pyMax_le (l : List Nat) (m : Nat) (h : pyMax l = some m) :
    ∀ n ∈ l, n ≤ m := by
  cases l with
  | nil => simp [pyMax] at h
  | cons a as =>
    simp only [pyMax, Option.some.injEq] at h
    subst h
    intro n hn
    rcases List.mem_cons.mp hn with h1 | h1
    · exact h1 ▸ (foldl_max_le as a).1
    · exact (foldl_max_le as a).2 n h1

/-- The Python maximum of a list extended by one element. -/
theorem pyMax_append_singleton (l : List Nat) (x : Nat) :
    pyMax (l ++ [x]) = some (match pyMax l with
      | none => x
      | some m => Nat.max m x) := by
  cases l with
  | nil => rfl
  | cons a as => simp [pyMax, List.foldl_append]

/-- Appending the successor of the current maximum makes it the new
maximum. -/
theorem pyMax_append_succ (l : List Nat) (m : Nat) (h : pyMax l = some m) :
    pyMax (l ++ [m + 1]) = some (m + 1) := by
  rw [pyMax_append_singleton, h]
  simp [Nat.max_eq_right (Nat.le_succ m)]

/-- Unfolding `create_book` on a nonempty book collection: the new book
carries id `mb + 1` and is appended; no other collection changes. -/
theorem create_book_id (db : DB) (mb : Nat) (title genre isbn : String)
    (aid yr : Nat) (price : ℚ)
    (hb : pyMax (db.books.map Book.id) = some mb) :
    ∃ b db2, create_book db title aid price genre yr isbn = some (b, db2) ∧
      b.id = mb + 1 ∧ b.author_id = aid ∧
      db2.authors = db.authors ∧ db2.customers = db.customers ∧
      db2.orders = db.orders ∧ db2.books = db.books ++ [b] := by
  unfold create_book
  rw [hb]
  exact ⟨_, _, rfl, rfl, rfl, rfl, rfl, rfl, rfl⟩

/-- Unfolding `create_order` on a nonempty order collection: the new
order carries id `mo + 1` and the accumulated total, and is appended. -/
theorem create_order_id (db : DB) (mo cid now : Nat) (ids : List Nat)
    (ho : pyMax (db.orders.map Order.id) = some mo) :
    ∃ o db2, create_order db cid ids now = some (o, db2) ∧
      o.id = mo + 1 ∧ o.book_ids = ids ∧
      o.total_amount = ids.foldl (fun acc book_id =>
        match get_book_by_id db book_id with
        | some book => fadd acc book.price
        | none => acc) 0 ∧
      db2.books = db.books ∧ db2.orders = db.orders ++ [o] := by
  unfold create_order
  rw [ho]
  exact ⟨_, _, rfl, rfl, rfl, rfl, rfl, rfl⟩

/-- The order-total fold is the binary64 left fold of the resolvable
books' prices: unresolvable ids contribute nothing, and resolvable ones
are accumulated with `fadd` in sequence order. -/
theorem order_total_aux (db : DB) (ids : List Nat) (acc : ℚ) :
    ids.foldl (fun acc book_id =>
        match get_book_by_id db book_id with
        | some book => fadd acc book.price
        | none => acc) acc
      = ((ids.filterMap (fun i => get_book_by_id db i)).map
          Book.price).foldl fadd acc := by
  induction ids generalizing acc with
  | nil => simp
  | cons i is ih =>
    cases h : get_book_by_id db i with
    | none =>
      rw [List.foldl_cons, List.filterMap_cons]
      simp only [h, ih]
    | some b =>
      rw [List.foldl_cons, List.filterMap_cons]
      simp only [h, ih, List.map_cons, List.foldl_cons]

/-! ## Claims -/

/-- C1: every composite request resolved by Strategy B — author with
books, and customer with orders and book-enriched items — issues exactly
one HTTP request and reports `call_count` (`total_requests`) exactly 1,
whatever the ids and whatever the server responds, regardless of the
relation depth of the query. -/
theorem strategyB_call_count_is_one (author_id customer_id : Nat)
    (resp1 resp2 : String) :
    (gql_get_author_with_books author_id resp1).1.length = 1 ∧
    (gql_get_author_with_books author_id resp1).2.total_requests = 1 ∧
    (gql_get_customer_order_summary customer_id resp2).1.length = 1 ∧
    (gql_get_customer_order_summary customer_id resp2).2.total_requests = 1 :=
  ⟨rfl, rfl, rfl, rfl⟩

/-- C2 (amended): Strategy A's composite customer traversal reports a
call count of 2 plus the total number of order items across the
customer's orders — one Book lookup per item occurrence; a book
referenced by several items is fetched once per occurrence, not
deduplicated. -/
theorem strategyA_call_count_items (srv : RestServer) (customer_id : Nat) :
    rest_customer_summary_call_count srv customer_id =
      2 + (((srv.orders.filter (fun o => o.customer_id = customer_id)).map
        (fun o => o.items.length)).sum) := by
  unfold rest_customer_summary_call_count
  rw [rest_count_aux]

/-- A server state on which customer 1 has two orders whose single items
both reference book 1. -/
def ctrex_server : RestServer :=
  { orders :=
      [ { id := 1, customer_id := 1, items := [{ book_id := 1 }] },
        { id := 2, customer_id := 1, items := [{ book_id := 1 }] } ] }

/-- C2 counterexample: for customer 1 of `ctrex_server`, the traversal
issues 4 calls (the client fetches book 1 twice), while 2 plus the
number of distinct book references is 3 — the claimed equation is false
at this input. -/
theorem strategyA_call_count_ctrex :
    rest_customer_summary_call_count ctrex_server 1 = 4 ∧
    2 + rest_customer_distinct_books ctrex_server 1 = 3 ∧
    rest_customer_summary_call_count ctrex_server 1 ≠
      2 + rest_customer_distinct_books ctrex_server 1 := by
  refine ⟨by decide, by decide, by decide⟩

/-- C6: for every order, `get_books_for_order` (the `books_in`
traversal) returns a sequence no longer than `order.book_ids`,
containing only books that are in the book collection under an id
listed in `order.book_ids` — unresolvable ids are silently dropped —
and its books, projected to their ids, are exactly the resolvable ids of
`order.book_ids` in their original relative order. -/
theorem books_in_order_spec (db : DB) (order : Order) :
    (get_books_for_order db order).length ≤ order.book_ids.length ∧
    (∀ b ∈ get_books_for_order db order,
      b ∈ db.books ∧ b.id ∈ order.book_ids) ∧
    (get_books_for_order db order).map Book.id =
      order.book_ids.filter (fun i => (get_book_by_id db i).isSome) := by
  refine ⟨List.length_filterMap_le _ _, ?_, map_id_filterMap_aux db _⟩
  intro b hb
  unfold get_books_for_order at hb
  rcases List.mem_filterMap.mp hb with ⟨i, hi, hfind⟩
  rcases get_book_by_id_mem db i b hfind with ⟨hmem, hid⟩
  exact ⟨hmem, hid ▸ hi⟩

/-- The first seeded order (customer 1, books 1 and 2). -/
def seed_order_one : Order :=
  { id := 1, customer_id := 1, book_ids := [1, 2], total_amount := pyFloat 62.98,
    order_date := 20230601 }

/-- The first seeded book. -/
def first_book : Book :=
  { id := 1, title := "Harry Potter and the Philosopher\x27s Stone",
    author_id := 1, price := pyFloat 29.99, genre := "Fantasy",
    published_year := 1997, isbn := "978-0439708180" }

/-- Witness for `books_in_order_spec` at the first seeded order: its two
book ids resolve, and the first resolved book is a member of the book
collection under a listed id. -/
theorem books_in_order_spec_witness :
    (get_books_for_order seed_db seed_order_one).length
      ≤ seed_order_one.book_ids.length ∧
    (first_book ∈ seed_db.books ∧ first_book.id ∈ seed_order_one.book_ids) ∧
    (get_books_for_order seed_db seed_order_one).map Book.id
      = seed_order_one.book_ids.filter
          (fun i => (get_book_by_id seed_db i).isSome) := by
  have h := books_in_order_spec seed_db seed_order_one
  have hlist : get_books_for_order seed_db seed_order_one
      = first_book ::
        [{ id := 2, title := "Harry Potter and the Chamber of Secrets",
           author_id := 1, price := pyFloat 32.99, genre := "Fantasy",
           published_year := 1998, isbn := "978-0439064873" }] := by
    with_unfolding_all rfl
  exact ⟨h.1, h.2.1 first_book (hlist ▸ List.mem_cons_self _ _), h.2.2⟩

/-- C10: in every Strategy B query — `books`, `authors`, `customers`,
`orders`, `search_books` — a `limit` argument of 0 is falsy under the
`if limit:` guard and therefore behaves exactly like passing no limit:
the entire filtered sequence is returned. -/
theorem limit_zero_is_no_limit (gdb : GDB) (author_id customer_id : Option Nat)
    (genre status : Option String) (q : String) :
    query_authors gdb (some 0) = query_authors gdb none ∧
    query_books gdb (some 0) author_id genre =
      query_books gdb none author_id genre ∧
    query_customers gdb (some 0) = query_customers gdb none ∧
    query_orders gdb (some 0) customer_id status =
      query_orders gdb none customer_id status ∧
    query_search_books gdb q (some 0) = query_search_books gdb q none :=
  ⟨rfl, rfl, rfl, rfl, rfl⟩

/-- C3 (amended): on a nonempty collection, creation assigns
id = (max existing id) + 1, and two sequential creations yield strictly
increasing ids — for both the book and the order collection. (On an
empty collection creation fails rather than assigning id 1, and an id
can be reused after the maximum-id entity is deleted; see the
counterexample.) -/
theorem create_ids_monotonic (db : DB) (title genre isbn : String)
    (aid yr cid now : Nat) (price : ℚ) (ids : List Nat) (mb mo : Nat)
    (hb : pyMax (db.books.map Book.id) = some mb)
    (ho : pyMax (db.orders.map Order.id) = some mo) :
    (∃ b db2, create_book db title aid price genre yr isbn = some (b, db2) ∧
      b.id = mb + 1 ∧
      ∃ b2 db3, create_book db2 title aid price genre yr isbn = some (b2, db3) ∧
        b2.id = mb + 2 ∧ b.id < b2.id) ∧
    (∃ o db2, create_order db cid ids now = some (o, db2) ∧
      o.id = mo + 1 ∧
      ∃ o2 db3, create_order db2 cid ids now = some (o2, db3) ∧
        o2.id = mo + 2 ∧ o.id < o2.id) := by
  constructor
  · obtain ⟨b, db2, h1, hid1, _, _, _, _, hbooks⟩ :=
      create_book_id db mb title genre isbn aid yr price hb
    have hb2 : pyMax (db2.books.map Book.id) = some (mb + 1) := by
      rw [hbooks, List.map_append, List.map_cons, List.map_nil, hid1]
      exact pyMax_append_succ _ _ hb
    obtain ⟨b2, db3, h2, hid2, _⟩ :=
      create_book_id db2 (mb + 1) title genre isbn aid yr price hb2
    exact ⟨b, db2, h1, hid1, b2, db3, h2, hid2, by omega⟩
  · obtain ⟨o, db2, h1, hid1, _, _, _, horders⟩ :=
      create_order_id db mo cid now ids ho
    have ho2 : pyMax (db2.orders.map Order.id) = some (mo + 1) := by
      rw [horders, List.map_append, List.map_cons, List.map_nil, hid1]
      exact pyMax_append_succ _ _ ho
    obtain ⟨o2, db3, h2, hid2, _⟩ := create_order_id db2 (mo + 1) cid now ids ho2
    exact ⟨o, db2, h1, hid1, o2, db3, h2, hid2, by omega⟩

/-- Witness for `create_ids_monotonic` at the seeded database, whose
maximal book id is 9 and maximal order id is 5. -/
theorem create_ids_monotonic_witness :
    (∃ b db2, create_book seed_db ("T") 1 10 ("G") 2000 ("i-0") = some (b, db2) ∧
      b.id = 9 + 1 ∧
      ∃ b2 db3, create_book db2 ("T") 1 10 ("G") 2000 ("i-0") = some (b2, db3) ∧
        b2.id = 9 + 2 ∧ b.id < b2.id) ∧
    (∃ o db2, create_order seed_db 1 [1, 2] 0 = some (o, db2) ∧
      o.id = 5 + 1 ∧
      ∃ o2 db3, create_order db2 1 [1, 2] 0 = some (o2, db3) ∧
        o2.id = 5 + 2 ∧ o.id < o2.id) :=
  create_ids_monotonic seed_db ("T") ("G") ("i-0") 1 2000 1 0 10 [1, 2] 9 5
    (by decide) (by decide)

/-- The database with all four collections empty. -/
def empty_db : DB :=
  { authors := [], books := [], customers := [], orders := [] }

/-- C3 counterexample: creating a book in the empty collection yields no
entity at all (Python `max()` raises), not an entity with id 1; and
after deleting book 9 — the maximal id of the seeded collection — the
next creation reuses id 9, so an id is reused after a prior deletion. -/
theorem create_ids_ctrex :
    create_book empty_db ("T") 1 10 ("G") 2000 ("i-0") = none ∧
    (9 : Nat) ∈ seed_db.books.map Book.id ∧
    (delete_book seed_db 9).1 = true ∧
    ((create_book (delete_book seed_db 9).2 ("T") 1 10 ("G") 2000 ("i-0")).map
      (fun r => r.1.id)) = some 9 := by
  refine ⟨rfl, by decide, by decide, by decide⟩

/-- C4 counterexample: the store-level creation succeeds for a Book
whose `author_id` 999 references no author of the seeded database — the
core operation does not fail, and the dangling reference is stored
verbatim. -/
theorem create_fk_ctrex :
    get_author_by_id seed_db 999 = none ∧
    (create_book seed_db ("Ghostly") 999 10 ("Fantasy") 2024 ("i-9")).isSome
      = true ∧
    ((create_book seed_db ("Ghostly") 999 10 ("Fantasy") 2024 ("i-9")).map
      (fun r => r.1.author_id)) = some 999 := by
  refine ⟨by decide, by decide, by decide⟩

/-- C4 (amended): the store-level creation performs no foreign-key
validation — a Book is created with any `author_id`, kept verbatim,
never coerced or dropped. Foreign keys of an Order are validated only by
the REST adapter, which fails with the human-readable reason
`Customer not found` for an unknown customer and
`Book with ID {id} not found` for the first unknown book id. -/
theorem create_fk_unvalidated (db : DB) (cid now : Nat) (ids : List Nat)
    (title genre isbn : String) (aid yr bid : Nat) (price : ℚ)
    (b : Book) (db2 : DB) :
    (get_customer_by_id db cid = none →
      rest_create_order db cid ids now =
        Except.error ("Customer not found")) ∧
    (∀ c, get_customer_by_id db cid = some c →
      ids.find? (fun i => (get_book_by_id db i).isNone) = some bid →
      rest_create_order db cid ids now =
        Except.error ("Book with ID " ++ toString bid ++ " not found")) ∧
    (create_book db title aid price genre yr isbn = some (b, db2) →
      b.author_id = aid ∧ b ∈ db2.books) := by
  refine ⟨?_, ?_, ?_⟩
  · intro h
    unfold rest_create_order
    rw [h]
  · intro c hc hfind
    unfold rest_create_order
    rw [hc, hfind]
  · intro h
    cases hm : pyMax (db.books.map Book.id) with
    | none => rw [create_book, hm] at h; exact absurd h (by simp)
    | some mb =>
      obtain ⟨b1, db1, h1, _, haid, _, _, _, hbooks⟩ :=
        create_book_id db mb title genre isbn aid yr price hm
      rw [h1, Option.some.injEq, Prod.mk.injEq] at h
      obtain ⟨hb1, hdb1⟩ := h
      subst hb1
      subst hdb1
      exact ⟨haid, by rw [hbooks]; exact List.mem_append_right _ (by simp)⟩

/-- The book the C4 witness creates: its `author_id` 999 dangles. -/
def ghost_book : Book :=
  { id := 10, title := "Ghostly", author_id := 999, price := 10,
    genre := "Fantasy", published_year := 2024, isbn := "i-9" }

/-- The seeded database with `ghost_book` appended. -/
def ghost_db : DB :=
  { seed_db with books := seed_books ++ [ghost_book] }

/-- Witness for `create_fk_unvalidated` at the seeded database:
customer 999 is unknown, book 42 is unknown, and the ghost book with
dangling `author_id` 999 is created. -/
theorem create_fk_unvalidated_witness :
    (rest_create_order seed_db 999 [1] 0 =
      Except.error ("Customer not found")) ∧
    (rest_create_order seed_db 1 [42] 0 =
      Except.error ("Book with ID " ++ toString 42 ++ " not found")) ∧
    (ghost_book.author_id = 999 ∧ ghost_book ∈ ghost_db.books) :=
  have h := create_fk_unvalidated seed_db 999 0 [1] ("Ghostly") ("Fantasy")
    ("i-9") 999 2024 42 10 ghost_book ghost_db
  have h2 := create_fk_unvalidated seed_db 1 0 [42] ("Ghostly") ("Fantasy")
    ("i-9") 999 2024 42 10 ghost_book ghost_db
  ⟨h.1 (by decide),
   h2.2.1 { id := 1, name := "Alice Johnson", email := "alice@example.com",
            registration_date := 20230115 } (by decide) (by decide),
   h.2.2 (by with_unfolding_all rfl)⟩

/-- C5 (amended): an order's `total_amount` is the binary64 float sum —
the left `fadd` fold starting at `0.0` — of the referenced books' price
doubles at creation time, resolved against the book collection as it is
at creation, and is a stored snapshot: updating any book price
afterwards leaves the stored order, including its total, unchanged.
Creating an order for books 1 and 2 of the seeded database (prices
29.99 and 32.99, the two books of author 1) yields the double
62.980000000000004 = 4431823508309279 / 2 ^ 46 — near, but not equal
to, the double 62.98 (see the counterexample). -/
theorem order_total_snapshot (db : DB) (cid now : Nat) (ids : List Nat)
    (o : Order) (db2 : DB)
    (h : create_order db cid ids now = some (o, db2)) :
    o.total_amount =
      ((ids.filterMap (fun i => get_book_by_id db i)).map
        Book.price).foldl fadd 0 ∧
    (∀ bid p, get_order_by_id (update_book_price db2 bid p) o.id = some o) ∧
    ((create_order seed_db 1 [1, 2] 0).map (fun r => r.1.total_amount))
      = some ((4431823508309279 : ℚ) / 2 ^ 46) := by
  cases hm : pyMax (db.orders.map Order.id) with
  | none =>
    rw [create_order, hm] at h
    exact absurd h (by simp)
  | some mo =>
    obtain ⟨o1, db1, h1, hid, _, htot, _, horders⟩ :=
      create_order_id db mo cid now ids hm
    rw [h1, Option.some.injEq, Prod.mk.injEq] at h
    obtain ⟨ho1, hdb1⟩ := h
    subst ho1
    subst hdb1
    refine ⟨?_, ?_, by with_unfolding_all rfl⟩
    · rw [htot, order_total_aux]
    · intro bid p
      have horders2 : (update_book_price db1 bid p).orders = db1.orders := rfl
      unfold get_order_by_id
      rw [horders2, horders, List.find?_append]
      have hnone : List.find? (fun order => order.id = o1.id) db.orders
          = none := by
        rw [List.find?_eq_none]
        intro x hx
        have hle := pyMax_le _ _ hm x.id (List.mem_map_of_mem Order.id hx)
        simp only [decide_eq_true_eq, hid]
        omega
      rw [hnone]
      simp

/-- The order the C5 witness creates at the seeded database; its total
is the double `0.0 + 29.99 + 32.99 = 62.980000000000004`. -/
def snapshot_order : Order :=
  { id := 6, customer_id := 1, book_ids := [1, 2],
    total_amount := (4431823508309279 : ℚ) / 2 ^ 46, order_date := 0 }

/-- The seeded database with `snapshot_order` appended. -/
def snapshot_db : DB :=
  { seed_db with orders := seed_orders ++ [snapshot_order] }

/-- Witness for `order_total_snapshot`: creating an order for books 1
and 2 at the seeded database yields the double 62.980000000000004,
still found unchanged after book 1's price is updated to 50. -/
theorem order_total_snapshot_witness :
    snapshot_order.total_amount =
      ((([1, 2] : List Nat).filterMap
          (fun i => get_book_by_id seed_db i)).map Book.price).foldl fadd 0 ∧
    get_order_by_id (update_book_price snapshot_db 1 50) snapshot_order.id
      = some snapshot_order ∧
    ((create_order seed_db 1 [1, 2] 0).map (fun r => r.1.total_amount))
      = some ((4431823508309279 : ℚ) / 2 ^ 46) :=
  have h := order_total_snapshot seed_db 1 0 [1, 2] snapshot_order
    snapshot_db (by with_unfolding_all rfl)
  ⟨h.1, h.2.1 1 50, h.2.2⟩

/-- C5 counterexample: with binary64 accumulation, the order created for
books 1 and 2 of the seed (prices 29.99 and 32.99) has the total
`0.0 + 29.99 + 32.99 = 62.980000000000004` — the exact sum of the two
price doubles falls halfway between two doubles and the tie rounds up
to the even mantissa — while the double `62.98` is the strictly smaller
8863647016618557 / 2 ^ 47, so the program's `total_amount == 62.98`
comparison is False: the claimed equality fails at creation. -/
theorem order_total_float_ctrex :
    ((create_order seed_db 1 [1, 2] 0).map (fun r => r.1.total_amount))
      = some ((4431823508309279 : ℚ) / 2 ^ 46) ∧
    pyFloat 62.98 = ((8863647016618557 : ℚ) / 2 ^ 47) ∧
    ((4431823508309279 : ℚ) / 2 ^ 46) ≠ ((8863647016618557 : ℚ) / 2 ^ 47) := by
  refine ⟨by with_unfolding_all rfl, by with_unfolding_all rfl, by norm_num⟩

/-- C7 (amended): store-level genre filtering
(`get_books_by_genre`) is a case-insensitive exact match, but the
Strategy B query-level genre filter (`Query.books`) is a case-sensitive
exact match: for a non-empty genre argument a book is in the result iff
its `genre` field equals the argument verbatim. -/
theorem genre_filter_semantics (db : DB) (gdb : GDB) (g : String)
    (b : Book) (gb : GBook) :
    (b ∈ get_books_by_genre db g ↔
      b ∈ db.books ∧ pyLower b.genre = pyLower g) ∧
    (g ≠ "" →
      (gb ∈ query_books gdb none none (some g) ↔
        gb ∈ gdb.books ∧ gb.genre = some g)) := by
  constructor
  · unfold get_books_by_genre
    simp [List.mem_filter]
  · intro hg
    unfold query_books
    simp [hg, List.mem_filter]

/-- A one-book Strategy B store whose only book has genre `Fantasy`. -/
def g_fantasy_book : GBook :=
  { id := 1, title := "Harry Potter and the Philosopher\x27s Stone",
    isbn := "978-0439708180", price := pyFloat 29.99, publication_date := 1997,
    author_id := 1, genre := some ("Fantasy"), description := none }

/-- The Strategy B store holding only `g_fantasy_book`. -/
def g_ctrex_db : GDB :=
  { authors := [], books := [g_fantasy_book], customers := [],
    orders := [] }

/-- C7 counterexample: for the genre string `fantasy`, the store-level
filter matches the seeded Fantasy books (case-insensitively), but the
Strategy B query returns no book even though `g_fantasy_book`'s genre
equals `fantasy` ignoring letter case — the query-level filter is not
case-insensitive. -/
theorem genre_filter_ctrex :
    pyLower ("Fantasy") = pyLower ("fantasy") ∧
    g_fantasy_book ∈ g_ctrex_db.books ∧
    g_fantasy_book.genre = some ("Fantasy") ∧
    query_books g_ctrex_db none none (some ("fantasy")) = [] ∧
    get_books_by_genre seed_db ("fantasy") ≠ [] := by
  refine ⟨by decide, by simp [g_ctrex_db], rfl, by decide, by decide⟩

/-- Witness for `genre_filter_semantics` at the seeded store-level
database and the one-book Strategy B store, with genre `Fantasy`. -/
theorem genre_filter_semantics_witness :
    (g_fantasy_book ∈ query_books g_ctrex_db none none (some ("Fantasy")) ↔
      g_fantasy_book ∈ g_ctrex_db.books ∧
        g_fantasy_book.genre = some ("Fantasy")) :=
  (genre_filter_semantics seed_db g_ctrex_db ("Fantasy")
    { id := 1, title := "", author_id := 1, price := 0, genre := "",
      published_year := 0, isbn := "" }
    g_fantasy_book).2 (by decide)

/-- The Strategy B store mirroring the seeded book collection (the
seeded content of the dict-based store is not under `src/`; the
mirrored books stand in for it). -/
def g_seed_books : List GBook :=
  seed_books.map (fun b =>
    { id := b.id, title := b.title, isbn := b.isbn, price := b.price,
      publication_date := b.published_year, author_id := b.author_id,
      genre := some b.genre, description := none })

/-- The Strategy B store with the mirrored seeded books. -/
def g_seed_db : GDB :=
  { authors := [], books := g_seed_books, customers := [], orders := [] }

/-- C8: in every Strategy B book query combining a filter with a
non-zero limit N, the filter is applied before the limit: the result is
the first N elements of the filtered sequence in original order — for
the genre filter of `Query.books` and the text filter of
`Query.search_books` alike; in particular, filtering by genre `Fantasy`
with limit 1 returns exactly the one-element sequence holding the first
Fantasy book. -/
theorem filter_before_limit (gdb : GDB) (g q : String) (n : Nat)
    (b : GBook) (hg : g ≠ "") (hn : n ≠ 0) :
    query_books gdb (some n) none (some g)
      = (gdb.books.filter (fun bk => bk.genre = some g)).take n ∧
    query_search_books gdb q (some n)
      = (gdb.books.filter (fun bk => search_matches q bk)).take n ∧
    ((gdb.books.filter (fun bk => bk.genre = some ("Fantasy"))).head?
        = some b →
      query_books gdb (some 1) none (some ("Fantasy")) = [b]) := by
  refine ⟨?_, ?_, ?_⟩
  · unfold query_books
    simp [hg, hn]
  · unfold query_search_books
    simp [hn]
  · intro hh
    unfold query_books
    have hfg : ("Fantasy" : String) ≠ "" := by decide
    simp only [if_neg hfg]
    cases hfe : gdb.books.filter (fun bk => bk.genre = some ("Fantasy")) with
    | nil => rw [hfe] at hh; simp at hh
    | cons x xs =>
      rw [hfe] at hh
      simp only [List.head?_cons, Option.some.injEq] at hh
      rw [hh]
      simp

/-- Witness for `filter_before_limit` at the mirrored seeded Strategy B
store: genre `Fantasy`, query `Harry`, limit 1; the first Fantasy book
is `g_fantasy_book`. -/
theorem filter_before_limit_witness :
    query_books g_seed_db (some 1) none (some ("Fantasy"))
      = (g_seed_db.books.filter
          (fun bk => bk.genre = some ("Fantasy"))).take 1 ∧
    query_search_books g_seed_db ("Harry") (some 1)
      = (g_seed_db.books.filter
          (fun bk => search_matches ("Harry") bk)).take 1 ∧
    query_books g_seed_db (some 1) none (some ("Fantasy"))
      = [g_fantasy_book] :=
  have h := filter_before_limit g_seed_db ("Fantasy") ("Harry") 1
    g_fantasy_book (by decide) (by decide)
  ⟨h.1, h.2.1, h.2.2 (by with_unfolding_all rfl)⟩

/-- A failed lookup makes `any` on the matching predicate false. -/
theorem any_eq_false_of_find?_none {α : Type} (p : α → Bool) (l : List α)
    (h : l.find? p = none) : l.any p = false := by
  rw [List.any_eq_false]
  intro x hx
  exact List.find?_eq_none.mp h x hx

/-- A successful lookup makes `any` on the matching predicate true. -/
theorem any_eq_true_of_find?_some {α : Type} (p : α → Bool) (l : List α)
    (a : α) (h : l.find? p = some a) : l.any p = true := by
  rw [List.any_eq_true]
  exact ⟨a, List.mem_of_find?_eq_some h, List.find?_some h⟩

/-- C9: for every collection kind, deleting an id that is not present
returns false and leaves the whole database unchanged, and deleting a
present id returns true, removes exactly the entities matching that id
from that one collection, and touches no other collection (no cascading
side effects). -/
theorem delete_semantics (db : DB) (id : Nat) :
    ((get_author_by_id db id = none → delete_author db id = (false, db)) ∧
     ∀ a, get_author_by_id db id = some a →
       (delete_author db id).1 = true ∧
       (delete_author db id).2.authors
         = db.authors.filter (fun x => x.id ≠ id) ∧
       (delete_author db id).2.books = db.books ∧
       (delete_author db id).2.customers = db.customers ∧
       (delete_author db id).2.orders = db.orders) ∧
    ((get_book_by_id db id = none → delete_book db id = (false, db)) ∧
     ∀ b, get_book_by_id db id = some b →
       (delete_book db id).1 = true ∧
       (delete_book db id).2.books
         = db.books.filter (fun x => x.id ≠ id) ∧
       (delete_book db id).2.authors = db.authors ∧
       (delete_book db id).2.customers = db.customers ∧
       (delete_book db id).2.orders = db.orders) ∧
    ((get_customer_by_id db id = none → delete_customer db id = (false, db)) ∧
     ∀ c, get_customer_by_id db id = some c →
       (delete_customer db id).1 = true ∧
       (delete_customer db id).2.customers
         = db.customers.filter (fun x => x.id ≠ id) ∧
       (delete_customer db id).2.authors = db.authors ∧
       (delete_customer db id).2.books = db.books ∧
       (delete_customer db id).2.orders = db.orders) ∧
    ((get_order_by_id db id = none → delete_order db id = (false, db)) ∧
     ∀ o, get_order_by_id db id = some o →
       (delete_order db id).1 = true ∧
       (delete_order db id).2.orders
         = db.orders.filter (fun x => x.id ≠ id) ∧
       (delete_order db id).2.authors = db.authors ∧
       (delete_order db id).2.books = db.books ∧
       (delete_order db id).2.customers = db.customers) := by
  refine ⟨⟨?_, ?_⟩, ⟨?_, ?_⟩, ⟨?_, ?_⟩, ⟨?_, ?_⟩⟩
  · intro h
    unfold delete_author
    rw [any_eq_false_of_find?_none _ _ h]
    simp
  · intro a h
    unfold delete_author
    rw [any_eq_true_of_find?_some _ _ a h]
    exact ⟨rfl, rfl, rfl, rfl, rfl⟩
  · intro h
    unfold delete_book
    rw [any_eq_false_of_find?_none _ _ h]
    simp
  · intro b h
    unfold delete_book
    rw [any_eq_true_of_find?_some _ _ b h]
    exact ⟨rfl, rfl, rfl, rfl, rfl⟩
  · intro h
    unfold delete_customer
    rw [any_eq_false_of_find?_none _ _ h]
    simp
  · intro c h
    unfold delete_customer
    rw [any_eq_true_of_find?_some _ _ c h]
    exact ⟨rfl, rfl, rfl, rfl, rfl⟩
  · intro h
    unfold delete_order
    rw [any_eq_false_of_find?_none _ _ h]
    simp
  · intro o h
    unfold delete_order
    rw [any_eq_true_of_find?_some _ _ o h]
    exact ⟨rfl, rfl, rfl, rfl, rfl⟩

/-- Witness for `delete_semantics` at the seeded database: author id 99
is absent (failed delete returns false and changes nothing); book id 9
is present (delete returns true, filters the book collection, keeps the
other collections). -/
theorem delete_semantics_witness :
    delete_author seed_db 99 = (false, seed_db) ∧
    (delete_book seed_db 9).1 = true ∧
    (delete_book seed_db 9).2.books
      = seed_db.books.filter (fun x => x.id ≠ 9) ∧
    (delete_book seed_db 9).2.authors = seed_db.authors ∧
    (delete_book seed_db 9).2.customers = seed_db.customers ∧
    (delete_book seed_db 9).2.orders = seed_db.orders :=
  have h := delete_semantics seed_db 99
  have h2 := delete_semantics seed_db 9
  have hb := h2.2.1.2
    { id := 9, title := "And Then There Were None", author_id := 5,
      price := pyFloat 16.99, genre := "Mystery", published_year := 1939,
      isbn := "978-0062073488" }
    (by with_unfolding_all rfl)
  ⟨h.1.1 (by decide), hb.1, hb.2.1, hb.2.2.1, hb.2.2.2.1, hb.2.2.2.2⟩

end Bookstore
